import Mathlib

/-!
Shallow embedding of the cds-admin-service serverless handlers.

The repository holds two Netlify functions:
* a banner updater (src/unnamed/part_000) that merges a JSON payload over a
  banner configuration file stored behind the GitHub contents API, and
* a live-status aggregator (src/netlify/functions/check-live.js, with an
  earlier variant in src/unnamed/part_001) that fetches a stream list and
  decides a best-effort `liveNow` flag per entry by probing YouTube pages.

JavaScript values produced by `JSON.parse` are embedded as `JValue`; the
external world (HTTP fetches, the remote content store, the clock) is passed
to each handler as explicit oracle data, with `none` standing for a thrown
exception / timeout at the corresponding `await`.
-/

set_option maxRecDepth 4096

namespace CdsAdmin

/-- JSON values. Numbers are modeled as integers (all numeric data the
handlers inspect — `version` values and comparison constants — is integral). -/
inductive JValue where
  | null
  | bool (b : Bool)
  | num (n : Int)
  | str (s : String)
  | arr (elems : List JValue)
  | obj (fields : List (String × JValue))

/-- First-match lookup in an object's field list (JS property read on the
own string-keyed entries; `JSON.parse` output never has duplicate keys). -/
def objLookup (fields : List (String × JValue)) (k : String) : Option JValue :=
  match fields with
  | [] => none
  | (k₁, v) :: rest => if k₁ == k then some v else objLookup rest k

/-- Own enumerable string-keyed entries of a value, as used by object spread
`{ ...v }`: objects give their fields, arrays and strings give index entries,
primitives give nothing. -/
def ownEntries : JValue → List (String × JValue)
  | .obj fs => fs
  | .arr xs => xs.enum.map (fun p => (toString p.1, p.2))
  | .str s => s.toList.enum.map (fun p => (toString p.1, JValue.str (String.mk [p.2])))
  | _ => []

/-- JS property read `v.k` (for values where the read does not throw;
`null.k` is modeled separately by `jsGetE`). `none` models `undefined`. -/
def jsGet (v : JValue) (k : String) : Option JValue :=
  objLookup (ownEntries v) k

/-- JS property read that raises a TypeError on `null` (as `json.streams`
does in the aggregator when the parsed document is `null`). -/
def jsGetE (v : JValue) (k : String) : Except Unit (Option JValue) :=
  match v with
  | .null => .error ()
  | _ => .ok (jsGet v k)

/-- JS truthiness of a value. -/
def truthy : JValue → Bool
  | .null => false
  | .bool b => b
  | .num n => n != 0
  | .str s => s != ""
  | .arr _ => true
  | .obj _ => true

/-- JS truthiness of a possibly-`undefined` value. -/
def optTruthy : Option JValue → Bool
  | none => false
  | some v => truthy v

/-- `typeof v === "object"` for values `JSON.parse` can produce. -/
def typeofObject : JValue → Bool
  | .null => true
  | .arr _ => true
  | .obj _ => true
  | _ => false

/-- JS property assignment `o.k = v` on a field list: an existing key is
updated in place, a new key is appended. -/
def objSet (fields : List (String × JValue)) (k : String) (v : JValue) :
    List (String × JValue) :=
  match fields with
  | [] => [(k, v)]
  | (k₁, w) :: rest => if k₁ == k then (k₁, v) :: rest else (k₁, w) :: objSet rest k v

/-- The object spread `{ ...a, ...b }` on field lists (part_000 lines 89-92,
the `next` object): keys of `a` keep their position and take `b`'s value when
`b` also has the key; keys only in `b` are appended in `b`'s order. -/
def spreadMerge (a b : List (String × JValue)) : List (String × JValue) :=
  (a.map (fun p => match objLookup b p.1 with
    | some v => (p.1, v)
    | none => p))
  ++ b.filter (fun p => (objLookup a p.1).isNone)

/-- JS environment-variable string (absent reads as empty). -/
def envStr (o : Option String) : String := o.getD ""

/-- JS truthiness of an environment variable: absent and empty are falsy. -/
def envTruthy (o : Option String) : Bool := envStr o != ""

/-! ### Banner updater (src/unnamed/part_000) -/

/-- The environment variables the updater destructures from `process.env`. -/
structure Env where
  ADMIN_SECRET : Option String
  GITHUB_TOKEN : Option String
  BANNER_REPO : Option String
  BANNER_PATH : Option String
  BANNER_BRANCH : Option String
  ALLOWED_ORIGIN : Option String

/-- The parts of the inbound event the updater reads. `body` is the result
of `JSON.parse(event.body || "{}")`: `none` models a parse exception. -/
structure UpdaterEvent where
  httpMethod : String
  authorization : Option String
  origin : Option String
  body : Option JValue

/-- Oracle for the GitHub contents GET. `decoded` is the result of the
base64-decode-then-`JSON.parse` of `current.content` (part_000 lines 81-87):
`none` models a throw inside that `try`, caught and replaced by `{}`. -/
structure GetResult where
  ok : Bool
  status : Nat
  text : String
  sha : JValue
  decoded : Option JValue

/-- Oracle for the GitHub contents PUT. -/
structure PutResult where
  ok : Bool
  status : Nat
  text : String

/-- The remote content store seen by one updater invocation. -/
structure Remote where
  getRes : GetResult
  putRes : PutResult

/-- Response body shapes of the updater; `okSaved next` stands for
`JSON.stringify({ ok: true, saved: next })`. -/
inductive UpdaterBody where
  | empty
  | text (s : String)
  | okSaved (saved : JValue)

/-- Result of one updater invocation, recording which remote calls were
issued and the object serialized into the PUT body. -/
structure UpdaterOutcome where
  statusCode : Nat
  body : UpdaterBody
  calledGet : Bool
  calledPut : Bool
  written : Option JValue

/-- part_000 lines 34-35: bearer-token extraction from the Authorization
header — `auth.startsWith("Bearer ") ? auth.slice(7) : ""`, written over the
character list (the marker is 7 ASCII characters, so `slice(7)` drops
exactly those). -/
def bearerToken (e : UpdaterEvent) : String :=
  let auth := e.authorization.getD ""
  if auth.toList.take 7 == "Bearer ".toList then String.mk (auth.toList.drop 7) else ""

/-- part_000 line 57: `const checkISO = (s) => !s || Number.isFinite(Date.parse(s))`.
`dateOk v` models the host predicate `Number.isFinite(Date.parse(v))`. -/
def checkISO (dateOk : JValue → Bool) (s : Option JValue) : Bool :=
  match s with
  | none => true
  | some v => !truthy v || dateOk v

/-- The updater handler (part_000 lines 12-127), with the host date parser
and the remote store passed as oracles. -/
def updaterHandler (dateOk : JValue → Bool) (env : Env) (event : UpdaterEvent)
    (remote : Remote) : UpdaterOutcome :=
  if event.httpMethod == "OPTIONS" then
    ⟨204, .empty, false, false, none⟩
  else if event.httpMethod != "POST" then
    ⟨405, .text "Method Not Allowed", false, false, none⟩
  else if !envTruthy env.ADMIN_SECRET || bearerToken event != envStr env.ADMIN_SECRET then
    ⟨401, .text "Unauthorized", false, false, none⟩
  else if !envTruthy env.GITHUB_TOKEN || !envTruthy env.BANNER_REPO
      || !envTruthy env.BANNER_PATH || !envTruthy env.BANNER_BRANCH then
    ⟨500, .text "Missing env", false, false, none⟩
  else
    match event.body with
    | none => ⟨400, .text "Bad JSON", false, false, none⟩
    | some payload =>
      if !truthy payload || !typeofObject payload
          || !optTruthy (jsGet payload "title") || !optTruthy (jsGet payload "id") then
        ⟨400, .text "Missing id/title", false, false, none⟩
      else if !checkISO dateOk (jsGet payload "start")
          || !checkISO dateOk (jsGet payload "end") then
        ⟨400, .text "Bad date format", false, false, none⟩
      else if !remote.getRes.ok then
        ⟨502, .text ("GitHub GET failed: " ++ toString remote.getRes.status ++ " "
          ++ remote.getRes.text), true, false, none⟩
      else
        let currentJson := remote.getRes.decoded.getD (.obj [])
        let next := JValue.obj (spreadMerge (ownEntries currentJson) (ownEntries payload))
        if !remote.putRes.ok then
          ⟨502, .text ("GitHub PUT failed: " ++ toString remote.putRes.status ++ " "
            ++ remote.putRes.text), true, true, some next⟩
        else
          ⟨200, .okSaved next, true, true, some next⟩

/-! ### Lookup properties of the shallow merge -/

@[simp] theorem objLookup_nil (k : String) : objLookup [] k = none := rfl

@[simp] theorem truthy_obj (fs : List (String × JValue)) : truthy (.obj fs) = true := rfl

@[simp] theorem typeofObject_obj (fs : List (String × JValue)) :
    typeofObject (.obj fs) = true := rfl

@[simp] theorem ownEntries_obj (fs : List (String × JValue)) :
    ownEntries (.obj fs) = fs := rfl

theorem objLookup_append (xs ys : List (String × JValue)) (k : String) :
    objLookup (xs ++ ys) k = match objLookup xs k with
      | some v => some v
      | none => objLookup ys k := by
  induction xs with
  | nil => simp
  | cons p rest ih =>
    obtain ⟨k₁, v⟩ := p
    cases hk : k₁ == k with
    | true => simp [objLookup, hk]
    | false => simp [objLookup, hk, ih]

theorem objLookup_mergeMap (a b : List (String × JValue)) (k : String) :
    objLookup (a.map (fun p => match objLookup b p.1 with
      | some v => (p.1, v)
      | none => p)) k
      = (objLookup a k).map (fun w => match objLookup b k with
          | some v => v
          | none => w) := by
  induction a with
  | nil => rfl
  | cons p rest ih =>
    obtain ⟨k₁, w₁⟩ := p
    cases hk : k₁ == k with
    | true =>
      have hkk : k₁ = k := by simpa using hk
      subst hkk
      cases hb : objLookup b k₁ <;> simp [objLookup, hb]
    | false =>
      cases hb : objLookup b k₁ <;> simp [objLookup, hb, hk, ih]

theorem objLookup_filterNotIn (a b : List (String × JValue)) (k : String)
    (h : objLookup a k = none) :
    objLookup (b.filter (fun p => (objLookup a p.1).isNone)) k = objLookup b k := by
  induction b with
  | nil => rfl
  | cons p rest ih =>
    obtain ⟨k₁, v⟩ := p
    cases hk : k₁ == k with
    | true =>
      have hkk : k₁ = k := by simpa using hk
      subst hkk
      simp [List.filter, h, objLookup, hk]
    | false =>
      cases ha : (objLookup a k₁).isNone <;>
        simp [List.filter, ha, objLookup, hk, ih]

theorem objLookup_filter_none (b : List (String × JValue)) (k : String)
    (P : String × JValue → Bool) (h : objLookup b k = none) :
    objLookup (b.filter P) k = none := by
  induction b with
  | nil => rfl
  | cons p rest ih =>
    obtain ⟨k₁, v⟩ := p
    cases hk : k₁ == k with
    | true => simp [objLookup, hk] at h
    | false =>
      have h₁ : objLookup rest k = none := by simpa [objLookup, hk] using h
      cases hp : P (k₁, v) <;> simp [List.filter, hp, objLookup, hk, ih h₁]

/-- A key of the payload ends up in the merge with the payload's value. -/
theorem spreadMerge_lookup_payload (a b : List (String × JValue)) (k : String)
    (v : JValue) (h : objLookup b k = some v) :
    objLookup (spreadMerge a b) k = some v := by
  rw [spreadMerge, objLookup_append, objLookup_mergeMap]
  cases ha : objLookup a k with
  | some w => simp [h]
  | none => simpa using (objLookup_filterNotIn a b k ha).trans h

/-- A key absent from the payload keeps the current file's value. -/
theorem spreadMerge_lookup_current (a b : List (String × JValue)) (k : String)
    (h : objLookup b k = none) :
    objLookup (spreadMerge a b) k = objLookup a k := by
  rw [spreadMerge, objLookup_append, objLookup_mergeMap]
  cases ha : objLookup a k with
  | some w => simp [h]
  | none => simpa using objLookup_filter_none b k _ h

theorem spreadMerge_nil (b : List (String × JValue)) : spreadMerge [] b = b := by
  simp [spreadMerge]

/-! ### Claims about the banner updater -/

/-- C1: for every decoded current configuration object and every valid
payload (object with truthy `title` and `id`) that passes validation, the
object written to the store and returned as `saved` is the shallow merge of
the two: every top-level key of `current` that is not a key of `payload`
keeps `current`'s value, and every top-level key of `payload` carries
`payload`'s value wholesale (no recursive combination of nested values). -/
theorem updater_shallow_merge
    (dateOk : JValue → Bool) (env : Env) (event : UpdaterEvent) (remote : Remote)
    (cf pf : List (String × JValue)) (k : String)
    (hm : event.httpMethod = "POST")
    (hsec : envTruthy env.ADMIN_SECRET = true)
    (htok : bearerToken event = envStr env.ADMIN_SECRET)
    (hgt : envTruthy env.GITHUB_TOKEN = true)
    (hrepo : envTruthy env.BANNER_REPO = true)
    (hpath : envTruthy env.BANNER_PATH = true)
    (hbr : envTruthy env.BANNER_BRANCH = true)
    (hbody : event.body = some (.obj pf))
    (htitle : optTruthy (objLookup pf "title") = true)
    (hid : optTruthy (objLookup pf "id") = true)
    (hstart : checkISO dateOk (objLookup pf "start") = true)
    (hend : checkISO dateOk (objLookup pf "end") = true)
    (hget : remote.getRes.ok = true)
    (hdec : remote.getRes.decoded = some (.obj cf))
    (hput : remote.putRes.ok = true) :
    (updaterHandler dateOk env event remote).statusCode = 200
    ∧ (updaterHandler dateOk env event remote).written = some (.obj (spreadMerge cf pf))
    ∧ (updaterHandler dateOk env event remote).body = .okSaved (.obj (spreadMerge cf pf))
    ∧ (objLookup pf k = none → objLookup (spreadMerge cf pf) k = objLookup cf k)
    ∧ (∀ v, objLookup pf k = some v → objLookup (spreadMerge cf pf) k = some v) := by
  have hrun : updaterHandler dateOk env event remote
      = ⟨200, .okSaved (.obj (spreadMerge cf pf)), true, true,
          some (.obj (spreadMerge cf pf))⟩ := by
    simp [updaterHandler, hm, hsec, htok, hgt, hrepo, hpath, hbr, hbody, hget, hdec,
      hput, truthy, typeofObject, jsGet, ownEntries, htitle, hid, hstart, hend]
  refine ⟨by rw [hrun], by rw [hrun], by rw [hrun],
    fun h => spreadMerge_lookup_current cf pf k h,
    fun v h => spreadMerge_lookup_payload cf pf k v h⟩

/-- C1 witness: the spec's example — current `{"title":"A","id":"1","extra":true}`
merged with payload `{"title":"B","id":"1"}` is written as
`{"title":"B","id":"1","extra":true}`. -/
theorem updater_shallow_merge_witness :
    (updaterHandler (fun _ => true)
      ⟨some "sec", some "tok", some "repo", some "path", some "main", none⟩
      ⟨"POST", some "Bearer sec", none, some (.obj [("title", .str "B"), ("id", .str "1")])⟩
      ⟨⟨true, 200, "", .str "sha",
          some (.obj [("title", .str "A"), ("id", .str "1"), ("extra", .bool true)])⟩,
        ⟨true, 201, ""⟩⟩).statusCode = 200
    ∧ (updaterHandler (fun _ => true)
      ⟨some "sec", some "tok", some "repo", some "path", some "main", none⟩
      ⟨"POST", some "Bearer sec", none, some (.obj [("title", .str "B"), ("id", .str "1")])⟩
      ⟨⟨true, 200, "", .str "sha",
          some (.obj [("title", .str "A"), ("id", .str "1"), ("extra", .bool true)])⟩,
        ⟨true, 201, ""⟩⟩).written
      = some (.obj [("title", .str "B"), ("id", .str "1"), ("extra", .bool true)])
    ∧ objLookup (spreadMerge [("title", .str "A"), ("id", .str "1"), ("extra", .bool true)]
        [("title", .str "B"), ("id", .str "1")]) "extra" = some (.bool true) := by
  have h := updater_shallow_merge (fun _ => true)
    ⟨some "sec", some "tok", some "repo", some "path", some "main", none⟩
    ⟨"POST", some "Bearer sec", none, some (.obj [("title", .str "B"), ("id", .str "1")])⟩
    ⟨⟨true, 200, "", .str "sha",
        some (.obj [("title", .str "A"), ("id", .str "1"), ("extra", .bool true)])⟩,
      ⟨true, 201, ""⟩⟩
    [("title", .str "A"), ("id", .str "1"), ("extra", .bool true)]
    [("title", .str "B"), ("id", .str "1")] "extra"
    rfl rfl (by decide) rfl rfl rfl rfl rfl rfl rfl rfl rfl rfl rfl rfl
  exact ⟨h.1, h.2.1, (h.2.2.2.1 rfl).trans rfl⟩

/-- C2: with an inbound POST, whenever the bearer token differs from the
configured admin secret, or no admin secret is configured at all, the updater
answers 401 and issues neither the remote read nor the remote write. -/
theorem updater_auth_fails_closed
    (dateOk : JValue → Bool) (env : Env) (event : UpdaterEvent) (remote : Remote)
    (hm : event.httpMethod = "POST")
    (h : env.ADMIN_SECRET = none ∨ bearerToken event ≠ envStr env.ADMIN_SECRET) :
    (updaterHandler dateOk env event remote).statusCode = 401
    ∧ (updaterHandler dateOk env event remote).calledGet = false
    ∧ (updaterHandler dateOk env event remote).calledPut = false := by
  have hguard : (!envTruthy env.ADMIN_SECRET
      || bearerToken event != envStr env.ADMIN_SECRET) = true := by
    rcases h with h | h
    · simp [envTruthy, envStr, h]
    · simp [h]
  simp [updaterHandler, hm, hguard]

/-- C2 witness: with no configured secret, a POST carrying a bearer token is
rejected with 401 and no remote call. -/
theorem updater_auth_fails_closed_witness :
    (updaterHandler (fun _ => false)
      ⟨none, some "tok", some "repo", some "path", some "main", none⟩
      ⟨"POST", some "Bearer anything", none, none⟩
      ⟨⟨true, 200, "", .null, none⟩, ⟨true, 200, ""⟩⟩).statusCode = 401
    ∧ (updaterHandler (fun _ => false)
      ⟨none, some "tok", some "repo", some "path", some "main", none⟩
      ⟨"POST", some "Bearer anything", none, none⟩
      ⟨⟨true, 200, "", .null, none⟩, ⟨true, 200, ""⟩⟩).calledGet = false
    ∧ (updaterHandler (fun _ => false)
      ⟨none, some "tok", some "repo", some "path", some "main", none⟩
      ⟨"POST", some "Bearer anything", none, none⟩
      ⟨⟨true, 200, "", .null, none⟩, ⟨true, 200, ""⟩⟩).calledPut = false :=
  updater_auth_fails_closed (fun _ => false)
    ⟨none, some "tok", some "repo", some "path", some "main", none⟩
    ⟨"POST", some "Bearer anything", none, none⟩
    ⟨⟨true, 200, "", .null, none⟩, ⟨true, 200, ""⟩⟩ rfl (Or.inl rfl)

/-- C8 counterexample: `start` equal to the empty string is present and does
not parse as a timestamp (`Date.parse("")` is NaN, modeled by the date oracle
answering false everywhere), yet the request is not rejected with 400: the
`!s` short-circuit in `checkISO` treats every falsy `start`/`end` as absent,
the remote read happens and the update succeeds with 200. -/
theorem updater_date_validation_counterexample :
    jsGet (JValue.obj [("title", .str "A"), ("id", .str "1"), ("start", .str "")]) "start"
      = some (.str "")
    ∧ (updaterHandler (fun _ => false)
      ⟨some "sec", some "tok", some "repo", some "path", some "main", none⟩
      ⟨"POST", some "Bearer sec", none,
        some (.obj [("title", .str "A"), ("id", .str "1"), ("start", .str "")])⟩
      ⟨⟨true, 200, "", .str "sha", some (.obj [])⟩, ⟨true, 201, ""⟩⟩).statusCode = 200
    ∧ (updaterHandler (fun _ => false)
      ⟨some "sec", some "tok", some "repo", some "path", some "main", none⟩
      ⟨"POST", some "Bearer sec", none,
        some (.obj [("title", .str "A"), ("id", .str "1"), ("start", .str "")])⟩
      ⟨⟨true, 200, "", .str "sha", some (.obj [])⟩, ⟨true, 201, ""⟩⟩).calledGet = true :=
  ⟨rfl, rfl, rfl⟩

/-- C8 amended: for an authorized, well-formed payload, a `start` or `end`
that is present and truthy and fails timestamp parsing yields 400 before any
remote call; when both are absent the date check never blocks: the request
reaches the remote read and the response is never 400. (A present but falsy
value — e.g. the empty string — is treated as absent by the `!s` guard.) -/
theorem updater_date_validation
    (dateOk : JValue → Bool) (env : Env) (event : UpdaterEvent) (remote : Remote)
    (pf : List (String × JValue))
    (hm : event.httpMethod = "POST")
    (hsec : envTruthy env.ADMIN_SECRET = true)
    (htok : bearerToken event = envStr env.ADMIN_SECRET)
    (hgt : envTruthy env.GITHUB_TOKEN = true)
    (hrepo : envTruthy env.BANNER_REPO = true)
    (hpath : envTruthy env.BANNER_PATH = true)
    (hbr : envTruthy env.BANNER_BRANCH = true)
    (hbody : event.body = some (.obj pf))
    (htitle : optTruthy (objLookup pf "title") = true)
    (hid : optTruthy (objLookup pf "id") = true) :
    (∀ v, objLookup pf "start" = some v → truthy v = true → dateOk v = false →
      (updaterHandler dateOk env event remote).statusCode = 400
      ∧ (updaterHandler dateOk env event remote).calledGet = false
      ∧ (updaterHandler dateOk env event remote).calledPut = false)
    ∧ (∀ v, objLookup pf "end" = some v → truthy v = true → dateOk v = false →
      (updaterHandler dateOk env event remote).statusCode = 400
      ∧ (updaterHandler dateOk env event remote).calledGet = false
      ∧ (updaterHandler dateOk env event remote).calledPut = false)
    ∧ (objLookup pf "start" = none → objLookup pf "end" = none →
      (updaterHandler dateOk env event remote).statusCode ≠ 400
      ∧ (updaterHandler dateOk env event remote).calledGet = true) := by
  refine ⟨fun v hv ht hd => ?_, fun v hv ht hd => ?_, fun hs he => ?_⟩
  · simp [updaterHandler, hm, hsec, htok, hgt, hrepo, hpath, hbr, hbody,
      jsGet, htitle, hid, checkISO, hv, ht, hd]
  · simp [updaterHandler, hm, hsec, htok, hgt, hrepo, hpath, hbr, hbody,
      jsGet, htitle, hid, checkISO, hv, ht, hd]
  · cases hg : remote.getRes.ok with
    | false =>
      constructor <;>
        simp [updaterHandler, hm, hsec, htok, hgt, hrepo, hpath, hbr, hbody, truthy,
          typeofObject, jsGet, ownEntries, htitle, hid, checkISO, hs, he, hg]
    | true =>
      cases hp : remote.putRes.ok with
      | false =>
        constructor <;>
          simp [updaterHandler, hm, hsec, htok, hgt, hrepo, hpath, hbr, hbody, truthy,
            typeofObject, jsGet, ownEntries, htitle, hid, checkISO, hs, he, hg, hp]
      | true =>
        constructor <;>
          simp [updaterHandler, hm, hsec, htok, hgt, hrepo, hpath, hbr, hbody, truthy,
            typeofObject, jsGet, ownEntries, htitle, hid, checkISO, hs, he, hg, hp]

/-- C8 amended witness: a payload whose `start` is the non-empty unparseable
string "not-a-date" is rejected with 400 and no remote call; a payload with
no `start`/`end` passes the date check and reaches the remote read. -/
theorem updater_date_validation_witness :
    ((updaterHandler (fun _ => false)
      ⟨some "sec", some "tok", some "repo", some "path", some "main", none⟩
      ⟨"POST", some "Bearer sec", none,
        some (.obj [("title", .str "A"), ("id", .str "1"), ("start", .str "not-a-date")])⟩
      ⟨⟨true, 200, "", .str "sha", some (.obj [])⟩, ⟨true, 201, ""⟩⟩).statusCode = 400
    ∧ (updaterHandler (fun _ => false)
      ⟨some "sec", some "tok", some "repo", some "path", some "main", none⟩
      ⟨"POST", some "Bearer sec", none,
        some (.obj [("title", .str "A"), ("id", .str "1"), ("start", .str "not-a-date")])⟩
      ⟨⟨true, 200, "", .str "sha", some (.obj [])⟩, ⟨true, 201, ""⟩⟩).calledGet = false
    ∧ (updaterHandler (fun _ => false)
      ⟨some "sec", some "tok", some "repo", some "path", some "main", none⟩
      ⟨"POST", some "Bearer sec", none,
        some (.obj [("title", .str "A"), ("id", .str "1"), ("start", .str "not-a-date")])⟩
      ⟨⟨true, 200, "", .str "sha", some (.obj [])⟩, ⟨true, 201, ""⟩⟩).calledPut = false)
    ∧ ((updaterHandler (fun _ => false)
      ⟨some "sec", some "tok", some "repo", some "path", some "main", none⟩
      ⟨"POST", some "Bearer sec", none,
        some (.obj [("title", .str "A"), ("id", .str "1")])⟩
      ⟨⟨true, 200, "", .str "sha", some (.obj [])⟩, ⟨true, 201, ""⟩⟩).statusCode ≠ 400
    ∧ (updaterHandler (fun _ => false)
      ⟨some "sec", some "tok", some "repo", some "path", some "main", none⟩
      ⟨"POST", some "Bearer sec", none,
        some (.obj [("title", .str "A"), ("id", .str "1")])⟩
      ⟨⟨true, 200, "", .str "sha", some (.obj [])⟩, ⟨true, 201, ""⟩⟩).calledGet = true) := by
  constructor
  · exact (updater_date_validation (fun _ => false)
      ⟨some "sec", some "tok", some "repo", some "path", some "main", none⟩
      ⟨"POST", some "Bearer sec", none,
        some (.obj [("title", .str "A"), ("id", .str "1"), ("start", .str "not-a-date")])⟩
      ⟨⟨true, 200, "", .str "sha", some (.obj [])⟩, ⟨true, 201, ""⟩⟩
      [("title", .str "A"), ("id", .str "1"), ("start", .str "not-a-date")]
      rfl rfl (by decide) rfl rfl rfl rfl rfl rfl rfl).1 (.str "not-a-date") rfl rfl rfl
  · exact (updater_date_validation (fun _ => false)
      ⟨some "sec", some "tok", some "repo", some "path", some "main", none⟩
      ⟨"POST", some "Bearer sec", none,
        some (.obj [("title", .str "A"), ("id", .str "1")])⟩
      ⟨⟨true, 200, "", .str "sha", some (.obj [])⟩, ⟨true, 201, ""⟩⟩
      [("title", .str "A"), ("id", .str "1")]
      rfl rfl (by decide) rfl rfl rfl rfl rfl rfl rfl).2.2 rfl rfl

/-- C9: when the decode of the existing remote content fails, the updater
proceeds with the empty object as the current configuration: the written
object is exactly the payload's own fields, the conditional write is still
issued, and the decode failure never fails the request (a successful write
yields 200 with `saved` equal to the payload alone). -/
theorem updater_decode_degrade
    (dateOk : JValue → Bool) (env : Env) (event : UpdaterEvent) (remote : Remote)
    (pf : List (String × JValue))
    (hm : event.httpMethod = "POST")
    (hsec : envTruthy env.ADMIN_SECRET = true)
    (htok : bearerToken event = envStr env.ADMIN_SECRET)
    (hgt : envTruthy env.GITHUB_TOKEN = true)
    (hrepo : envTruthy env.BANNER_REPO = true)
    (hpath : envTruthy env.BANNER_PATH = true)
    (hbr : envTruthy env.BANNER_BRANCH = true)
    (hbody : event.body = some (.obj pf))
    (htitle : optTruthy (objLookup pf "title") = true)
    (hid : optTruthy (objLookup pf "id") = true)
    (hstart : checkISO dateOk (objLookup pf "start") = true)
    (hend : checkISO dateOk (objLookup pf "end") = true)
    (hget : remote.getRes.ok = true)
    (hdec : remote.getRes.decoded = none) :
    (updaterHandler dateOk env event remote).calledGet = true
    ∧ (updaterHandler dateOk env event remote).calledPut = true
    ∧ (updaterHandler dateOk env event remote).written = some (.obj pf)
    ∧ (remote.putRes.ok = true →
        (updaterHandler dateOk env event remote).statusCode = 200
        ∧ (updaterHandler dateOk env event remote).body = .okSaved (.obj pf)) := by
  cases hp : remote.putRes.ok with
  | false =>
    refine ⟨?_, ?_, ?_, fun hc => absurd hc (by simp [hp])⟩ <;>
      simp [updaterHandler, hm, hsec, htok, hgt, hrepo, hpath, hbr, hbody, truthy,
        typeofObject, jsGet, ownEntries, htitle, hid, hstart, hend, hget, hdec, hp,
        spreadMerge_nil]
  | true =>
    refine ⟨?_, ?_, ?_, fun _ => ⟨?_, ?_⟩⟩ <;>
      simp [updaterHandler, hm, hsec, htok, hgt, hrepo, hpath, hbr, hbody, truthy,
        typeofObject, jsGet, ownEntries, htitle, hid, hstart, hend, hget, hdec, hp,
        spreadMerge_nil]

/-- C9 witness: with undecodable existing content, the payload
`{"title":"B","id":"1"}` is written as-is and the request succeeds. -/
theorem updater_decode_degrade_witness :
    (updaterHandler (fun _ => true)
      ⟨some "sec", some "tok", some "repo", some "path", some "main", none⟩
      ⟨"POST", some "Bearer sec", none, some (.obj [("title", .str "B"), ("id", .str "1")])⟩
      ⟨⟨true, 200, "", .str "sha", none⟩, ⟨true, 201, ""⟩⟩).written
      = some (.obj [("title", .str "B"), ("id", .str "1")])
    ∧ (updaterHandler (fun _ => true)
      ⟨some "sec", some "tok", some "repo", some "path", some "main", none⟩
      ⟨"POST", some "Bearer sec", none, some (.obj [("title", .str "B"), ("id", .str "1")])⟩
      ⟨⟨true, 200, "", .str "sha", none⟩, ⟨true, 201, ""⟩⟩).statusCode = 200 := by
  have h := updater_decode_degrade (fun _ => true)
    ⟨some "sec", some "tok", some "repo", some "path", some "main", none⟩
    ⟨"POST", some "Bearer sec", none, some (.obj [("title", .str "B"), ("id", .str "1")])⟩
    ⟨⟨true, 200, "", .str "sha", none⟩, ⟨true, 201, ""⟩⟩
    [("title", .str "B"), ("id", .str "1")]
    rfl rfl (by decide) rfl rfl rfl rfl rfl rfl rfl rfl rfl rfl rfl
  exact ⟨h.2.2.1, (h.2.2.2 rfl).1⟩

/-! ### Pattern matching used by the liveness probe

The probe tests a handful of fixed regular expressions against fetched
markup. Each is embedded as a decidable matcher over the character list;
`testAny p l` is `true` when `p` accepts some suffix of `l`, which is what
`RegExp.test` computes for these anchorless patterns. -/

/-- JavaScript's `\s` character class. -/
def isJsWs (c : Char) : Bool :=
  let n := c.toNat
  (decide (9 ≤ n) && decide (n ≤ 13)) || n == 32 || n == 160 || n == 5760
    || (decide (8192 ≤ n) && decide (n ≤ 8202)) || n == 8232 || n == 8233
    || n == 8239 || n == 8287 || n == 12288 || n == 65279

/-- `\s*`: greedy whitespace skip (the following literal never starts with a
whitespace character, so no backtracking is needed). -/
def skipWs (l : List Char) : List Char := l.dropWhile isJsWs

/-- Match a literal at the head of the list and return the rest. -/
def afterLit (pat l : List Char) : Option (List Char) :=
  if l.take pat.length == pat then some (l.drop pat.length) else none

/-- Does `p` accept some suffix of the list? (`RegExp.test` semantics.) -/
def testAny (p : List Char → Bool) : List Char → Bool
  | [] => p []
  | c :: rest => p (c :: rest) || testAny p rest

/-- Plain-substring occurrence. -/
def listContains (pat : List Char) : List Char → Bool :=
  testAny (fun l => (afterLit pat l).isSome)

/-- `s` contains `pat` as a substring (models `RegExp.test` for literal
patterns and `String.prototype.includes`). -/
def containsSub (s pat : String) : Bool := listContains pat.toList s.toList

/-- Anchored match of `"isLiveNow"\s*:\s*true`. -/
def isLiveNowAt (l : List Char) : Bool :=
  match afterLit ("\"isLiveNow\"".toList) l with
  | none => false
  | some r =>
    match afterLit [':'] (skipWs r) with
    | none => false
    | some r₂ => (afterLit ("true".toList) (skipWs r₂)).isSome

/-- `/"isLiveNow"\s*:\s*true/.test s`. -/
def testIsLiveNowTrue (s : String) : Bool := testAny isLiveNowAt s.toList

/-- Anchored match of `"iconType"\s*:\s*"LIVE"`. -/
def iconTypeLiveAt (l : List Char) : Bool :=
  match afterLit ("\"iconType\"".toList) l with
  | none => false
  | some r =>
    match afterLit [':'] (skipWs r) with
    | none => false
    | some r₂ => (afterLit ("\"LIVE\"".toList) (skipWs r₂)).isSome

/-- `/"iconType"\s*:\s*"LIVE"/.test s`. -/
def testIconTypeLive (s : String) : Bool := testAny iconTypeLiveAt s.toList

/-- Anchored match of `"liveBroadcastDetails"\s*:`. -/
def liveBroadcastDetailsAt (l : List Char) : Bool :=
  match afterLit ("\"liveBroadcastDetails\"".toList) l with
  | none => false
  | some r => (afterLit [':'] (skipWs r)).isSome

/-- `/"liveBroadcastDetails"\s*:/.test s`. -/
def testLiveBroadcastDetails (s : String) : Bool :=
  testAny liveBroadcastDetailsAt s.toList

/-- Case-folded characters, for the `/i` flag. -/
def lowerChars (s : String) : List Char := s.toList.map Char.toLower

/-- `String.prototype.toLowerCase`, character-wise. -/
def toLowerStr (s : String) : String := String.mk (s.toList.map Char.toLower)

/-- Anchored match of `itemprop="isLiveBroadcast"\s+content="True"` over
case-folded characters (`\s+` needs at least one whitespace character). -/
def itempropAt (l : List Char) : Bool :=
  match afterLit (lowerChars "itemprop=\"isLiveBroadcast\"") l with
  | none => false
  | some r =>
    match r with
    | [] => false
    | c :: _ => isJsWs c && (afterLit (lowerChars "content=\"True\"") (skipWs r)).isSome

/-- `/itemprop="isLiveBroadcast"\s+content="True"/i.test s`. -/
def testItemprop (s : String) : Bool := testAny itempropAt (lowerChars s)

/-- Anchored match of `ytBadges"[^<]*LIVE`: after the literal, `LIVE` must
occur before the next `<`. -/
def ytBadgesAt (l : List Char) : Bool :=
  match afterLit ("ytBadges\"".toList) l with
  | none => false
  | some r => listContains ("LIVE".toList) (r.takeWhile (fun c => c != '<'))

/-- `/ytBadges"[^<]*LIVE/.test s`. -/
def testYtBadges (s : String) : Bool := testAny ytBadgesAt s.toList

/-- `[A-Za-z0-9_-]`. -/
def isIdChar (c : Char) : Bool :=
  (decide ('A' ≤ c) && decide (c ≤ 'Z')) || (decide ('a' ≤ c) && decide (c ≤ 'z'))
    || (decide ('0' ≤ c) && decide (c ≤ '9')) || c == '_' || c == '-'

/-- Anchored match of the canonical-link pattern
`<link\s+rel="canonical"\s+href="https://www.youtube.com/watch?v=([A-Za-z0-9_-]ELEVEN)"`
(the group is exactly 11 id characters followed by a double quote);
returns the captured video id. -/
def canonAt (l : List Char) : Option (List Char) :=
  match afterLit ("<link".toList) l with
  | none => none
  | some r =>
    match r with
    | [] => none
    | c :: _ =>
      if isJsWs c then
        match afterLit ("rel=\"canonical\"".toList) (skipWs r) with
        | none => none
        | some r₂ =>
          match r₂ with
          | [] => none
          | c₂ :: _ =>
            if isJsWs c₂ then
              match afterLit ("href=\"https://www.youtube.com/watch?v=".toList)
                  (skipWs r₂) with
              | none => none
              | some r₃ =>
                let vid := r₃.take 11
                if vid.length == 11 && vid.all isIdChar
                    && ((r₃.drop 11).take 1 == ['"']) then some vid else none
            else none
      else none

/-- First match of the canonical-link pattern in the list. -/
def findCanonicalAux : List Char → Option (List Char)
  | [] => none
  | c :: rest =>
    match canonAt (c :: rest) with
    | some vid => some vid
    | none => findCanonicalAux rest

/-- `html.match(canonical-link regex)`, returning the captured 11-character
video id of the first match, if any. -/
def findCanonical (s : String) : Option String := (findCanonicalAux s.toList).map String.mk

/-! ### Liveness probe (check-live.js lines 40-99 and part_001 lines 13-27) -/

/-- `String.prototype.trim` (JS trims the `\s` class from both ends). -/
def trimJs (s : String) : String :=
  String.mk (((s.toList.dropWhile isJsWs).reverse.dropWhile isJsWs).reverse)

/-- `/[?&](hl|gl)=/.test url`. -/
def hasLocaleParam (url : String) : Bool :=
  containsSub url "?hl=" || containsSub url "&hl=" || containsSub url "?gl="
    || containsSub url "&gl="

/-- check-live.js lines 45-48: ensure `hl`/`gl` query parameters are present. -/
def normalizedUrl (inputUrl : String) : String :=
  let url := trimJs inputUrl
  if hasLocaleParam url then url
  else url ++ (if containsSub url "?" then "&" else "?") ++ "hl=en&gl=US"

/-- Result of one `fetch` that returned: the post-redirect `res.url` (the
empty string models a falsy/absent value) and the body text (`none` models a
throw while reading it). -/
structure FetchRes where
  url : String
  text : Option String

/-- The network as seen by one probe: the first fetch and, when a canonical
watch link is extracted, the follow-up fetch. `none` models a throw or the
8-second timeout. -/
structure ProbeWorld where
  fetch1 : Option FetchRes
  fetch2 : Option FetchRes

/-- The strong live-indicator check applied to watch-page markup
(check-live.js lines 56-61 and 75-80). -/
def liveSignals (html : String) : Bool :=
  testIsLiveNowTrue html || testIconTypeLive html || testLiveBroadcastDetails html
    || testItemprop html

/-- The step-3 heuristics applied directly to channel/live markup
(check-live.js lines 87-92). -/
def step3Signals (html : String) : Bool :=
  testIsLiveNowTrue html || testIconTypeLive html || testYtBadges html
    || containsSub html "live_stream"

/-- The post-redirect URL the probe inspects: `res1.url || url`. -/
def resolvedUrl (r : FetchRes) (inputUrl : String) : String :=
  if r.url == "" then normalizedUrl inputUrl else r.url

/-- check-live.js lines 40-99: the YouTube liveness probe. Every oracle
`none` (thrown fetch, timeout, failed body read) lands in the `catch` and
yields `false`. -/
def isYoutubeLive (w : ProbeWorld) (inputUrl : String) : Bool :=
  let url := trimJs inputUrl
  if url == "" then false
  else
    match w.fetch1 with
    | none => false
    | some r₁ =>
      let finalUrl := resolvedUrl r₁ inputUrl
      match r₁.text with
      | none => false
      | some html =>
        if containsSub finalUrl "/watch?v=" then liveSignals html
        else
          match findCanonical html with
          | some _vid =>
            (match w.fetch2 with
             | none => false
             | some r₂ =>
               match r₂.text with
               | none => false
               | some watchHtml => liveSignals watchHtml)
          | none => step3Signals html

/-- part_001 lines 13-27: the earlier probe variant. A final URL matching
`/watch?v=` (or containing `live_stream`) returns `true` immediately without
inspecting the markup; otherwise the body is scanned for `"isLiveNow":true`. -/
def isYoutubeLiveLegacy (w : ProbeWorld) (url : String) : Bool :=
  match w.fetch1 with
  | none => false
  | some r =>
    let finalUrl := if r.url == "" then url else r.url
    if containsSub finalUrl "/watch?v=" || containsSub finalUrl "live_stream" then true
    else
      match r.text with
      | none => false
      | some t => testIsLiveNowTrue t

/-! ### Live-status aggregator (check-live.js lines 101-165, part_001 lines 29-97) -/

/-- Digits of a decimal literal, accumulator form. -/
def digitsToNatAux (acc : Nat) : List Char → Option Nat
  | [] => some acc
  | c :: rest =>
    if c.isDigit then digitsToNatAux (acc * 10 + (c.toNat - 48)) rest else none

/-- A nonempty all-digit list as a number. -/
def digitsToNat (l : List Char) : Option Nat :=
  match l with
  | [] => none
  | _ => digitsToNatAux 0 l

/-- Host `Number(string)` conversion, modeled for the trimmed integer
strings the repository's data uses (empty string is 0, otherwise an optional
sign and decimal digits); `none` is NaN. -/
def parseNumStr (s : String) : Option Int :=
  match (trimJs s).toList with
  | [] => some 0
  | '-' :: rest => (digitsToNat rest).map (fun n => -(n : Int))
  | '+' :: rest => (digitsToNat rest).map (fun n => (n : Int))
  | l => (digitsToNat l).map (fun n => (n : Int))

/-- Host `Number(v)` conversion applied to a JSON value; `none` is NaN.
Compound values are modeled coarsely (the handlers never rely on them). -/
def jsNumber : JValue → Option Int
  | .null => some 0
  | .bool true => some 1
  | .bool false => some 0
  | .num n => some n
  | .str s => parseNumStr s
  | .arr [] => some 0
  | .arr _ => none
  | .obj _ => none

/-- Host `String(v)` conversion, modeled for primitive values (the probe is
only ever handed the `url` field, a string in the repository's data). -/
def jsToString : JValue → String
  | .null => "null"
  | .bool true => "true"
  | .bool false => "false"
  | .num n => toString n
  | .str s => s
  | .arr _ => ""
  | .obj _ => "[object Object]"

/-- check-live.js line 151 / part_001 line 83: `Number(json.version) || 1` on
the possibly-absent `version` field (`Number(undefined)` is NaN; NaN and 0
are falsy, so both fall back to 1). -/
def numberOr1 (o : Option JValue) : Int :=
  match o with
  | none => 1
  | some v =>
    match jsNumber v with
    | none => 1
    | some 0 => 1
    | some n => n

/-- `CACHE_TTL_MS = 90 * 1000`. -/
def CACHE_TTL_MS : Int := 90 * 1000

/-- The environment variables the aggregator reads. -/
structure AggEnv where
  LIVE_JSON_URL : Option String
  ALLOWED_ORIGIN : Option String

/-- The parts of the inbound event the aggregator reads. -/
structure AggEvent where
  httpMethod : String
  origin : Option String

/-- The payload the aggregator builds, caches, and serializes (check-live.js
lines 150-154). -/
structure LivePayload where
  version : Int
  checkedAt : String
  streams : List JValue

/-- The process-lifetime single cache slot `let cache = { at: 0, payload: null }`;
`atTime` is the `at` field (epoch milliseconds). -/
structure Cache where
  atTime : Int
  payload : Option LivePayload

/-- Oracle for the upstream stream-list fetch; `json = none` models a throw
inside `upstream.json()`. -/
structure UpstreamRes where
  ok : Bool
  status : Nat
  json : Option JValue

/-- Response body shapes of the aggregator; `payload p` stands for
`JSON.stringify(p)`. -/
inductive AggBody where
  | empty
  | text (s : String)
  | payload (p : LivePayload)

/-- Result of one aggregator invocation: the response, the cache slot after
the call, and whether the upstream fetch was issued. -/
structure AggOutcome where
  statusCode : Nat
  body : AggBody
  cache : Cache
  fetchedUpstream : Bool

/-- check-live.js lines 138-145: the branch taken when `liveNow` is not
already a boolean — `(out.platform || "youtube").toLowerCase()` dispatch.
The `.error` value models the TypeError thrown by `.toLowerCase()` when a
truthy non-string `platform` is present; it propagates to the handler's
`catch`. -/
def resolveFresh (w : ProbeWorld) (out : List (String × JValue)) : Except Unit JValue :=
  match (match objLookup out "platform" with
    | some v => if truthy v then some v else none
    | none => none) with
  | some (.str p) =>
    if toLowerStr p == "youtube" && optTruthy (objLookup out "url") then
      .ok (.obj (objSet out "liveNow"
        (.bool (isYoutubeLive w (jsToString ((objLookup out "url").getD .null))))))
    else
      .ok (.obj (objSet out "liveNow" (.bool false)))
  | some _ => .error ()
  | none =>
    if toLowerStr "youtube" == "youtube" && optTruthy (objLookup out "url") then
      .ok (.obj (objSet out "liveNow"
        (.bool (isYoutubeLive w (jsToString ((objLookup out "url").getD .null))))))
    else
      .ok (.obj (objSet out "liveNow" (.bool false)))

/-- check-live.js lines 135-147: per-entry `liveNow` resolution. -/
def resolveEntry (w : ProbeWorld) (s : JValue) : Except Unit JValue :=
  match objLookup (ownEntries s) "liveNow" with
  | some (.bool _) => .ok (.obj (ownEntries s))
  | _ => resolveFresh w (ownEntries s)

/-- part_001 lines 73-78: the earlier non-override branch. The platform is
compared with strict equality and no case folding, so nothing can throw. -/
def resolveFreshLegacy (w : ProbeWorld) (out : List (String × JValue)) : JValue :=
  if (match (match objLookup out "platform" with
      | some v => if truthy v then v else .str "youtube"
      | none => .str "youtube") with
    | .str p => p == "youtube"
    | _ => false) && optTruthy (objLookup out "url") then
    .obj (objSet out "liveNow"
      (.bool (isYoutubeLiveLegacy w (jsToString ((objLookup out "url").getD .null)))))
  else
    .obj (objSet out "liveNow" (.bool false))

/-- part_001 lines 67-79: the earlier per-entry resolution. -/
def resolveEntryLegacy (w : ProbeWorld) (s : JValue) : JValue :=
  match objLookup (ownEntries s) "liveNow" with
  | some (.bool _) => .obj (ownEntries s)
  | _ => resolveFreshLegacy w (ownEntries s)

/-- `Promise.all(streams.map(...))` with one probe world per position; the
first per-entry TypeError rejects the whole batch. -/
def resolveAll (pw : Nat → ProbeWorld) (i : Nat) :
    List JValue → Except Unit (List JValue)
  | [] => .ok []
  | s :: rest =>
    match resolveEntry (pw i) s with
    | .error e => .error e
    | .ok v =>
      match resolveAll pw (i + 1) rest with
      | .error e => .error e
      | .ok vs => .ok (v :: vs)

/-- check-live.js lines 125-164: the `try` block — upstream fetch, per-entry
resolution, payload build, cache store. -/
def aggRefresh (cache : Cache) (now : Int) (upstream : Option UpstreamRes)
    (nowIso : String) (pw : Nat → ProbeWorld) : AggOutcome :=
  match upstream with
  | none => ⟨500, .text "error", cache, true⟩
  | some u =>
    if !u.ok then ⟨502, .text ("Upstream " ++ toString u.status), cache, true⟩
    else
      match u.json with
      | none => ⟨500, .text "error", cache, true⟩
      | some json =>
        match jsGetE json "streams" with
        | .error _ => ⟨500, .text "error", cache, true⟩
        | .ok streamsField =>
          let streams : List JValue :=
            match streamsField with
            | some (.arr xs) => xs
            | _ => []
          match resolveAll pw 0 streams with
          | .error _ => ⟨500, .text "error", cache, true⟩
          | .ok updated =>
            match jsGetE json "version" with
            | .error _ => ⟨500, .text "error", cache, true⟩
            | .ok versionField =>
              let payload : LivePayload := ⟨numberOr1 versionField, nowIso, updated⟩
              ⟨200, .payload payload, ⟨now, some payload⟩, true⟩

/-- check-live.js lines 101-165: the aggregator handler. `now` is
`Date.now()`, `nowIso` is `new Date().toISOString()`, `upstream` and `pw`
are the network oracles. -/
def aggHandler (env : AggEnv) (event : AggEvent) (cache : Cache) (now : Int)
    (upstream : Option UpstreamRes) (nowIso : String) (pw : Nat → ProbeWorld) :
    AggOutcome :=
  if event.httpMethod == "OPTIONS" then ⟨204, .empty, cache, false⟩
  else if event.httpMethod != "GET" then
    ⟨405, .text "Method Not Allowed", cache, false⟩
  else if !envTruthy env.LIVE_JSON_URL then
    ⟨500, .text "LIVE_JSON_URL missing", cache, false⟩
  else
    match cache.payload with
    | some p =>
      if now - cache.atTime < CACHE_TTL_MS then ⟨200, .payload p, cache, false⟩
      else aggRefresh cache now upstream nowIso pw
    | none => aggRefresh cache now upstream nowIso pw

/-! ### Helper lemmas for the aggregator -/

theorem jsGetE_ne_null (v : JValue) (h : v ≠ .null) (k : String) :
    jsGetE v k = .ok (jsGet v k) := by
  cases v
  case null => exact absurd rfl h
  all_goals rfl

theorem resolveEntry_eq_fresh (w : ProbeWorld) (s : JValue)
    (hlive : ∀ b, objLookup (ownEntries s) "liveNow" ≠ some (.bool b)) :
    resolveEntry w s = resolveFresh w (ownEntries s) := by
  unfold resolveEntry
  cases hl : objLookup (ownEntries s) "liveNow"
  case none => rfl
  case some v =>
    cases v
    case bool b => exact absurd hl (hlive b)
    all_goals rfl

theorem resolveEntryLegacy_eq_fresh (w : ProbeWorld) (s : JValue)
    (hlive : ∀ b, objLookup (ownEntries s) "liveNow" ≠ some (.bool b)) :
    resolveEntryLegacy w s = resolveFreshLegacy w (ownEntries s) := by
  unfold resolveEntryLegacy
  cases hl : objLookup (ownEntries s) "liveNow"
  case none => rfl
  case some v =>
    cases v
    case bool b => exact absurd hl (hlive b)
    all_goals rfl

/-- The per-entry computation cannot throw: `true` when `platform` is a
string, falsy, or absent (the TypeError needs a truthy non-string). -/
def platformSafeFields (out : List (String × JValue)) : Bool :=
  match objLookup out "platform" with
  | some (.str _) => true
  | some v => !truthy v
  | none => true

/-- An entry on which `resolveEntry` cannot throw. -/
def entrySafe (s : JValue) : Bool :=
  match objLookup (ownEntries s) "liveNow" with
  | some (.bool _) => true
  | _ => platformSafeFields (ownEntries s)

def exceptIsOk : Except Unit JValue → Bool
  | .ok _ => true
  | .error _ => false

theorem exceptIsOk_iff (e : Except Unit JValue) :
    exceptIsOk e = true ↔ ∃ v, e = .ok v := by
  cases e <;> simp [exceptIsOk]

theorem resolveFresh_isOk (w : ProbeWorld) (out : List (String × JValue))
    (h : platformSafeFields out = true) : exceptIsOk (resolveFresh w out) = true := by
  unfold resolveFresh
  split
  · split <;> rfl
  · exfalso
    rename_i val hnot heq
    unfold platformSafeFields at h
    cases hp : objLookup out "platform" with
    | none => rw [hp] at heq; exact absurd heq (by simp)
    | some u =>
      rw [hp] at heq h
      cases htr : truthy u with
      | false => simp [htr] at heq
      | true =>
        simp [htr] at heq
        subst heq
        cases u with
        | str q => exact hnot q rfl
        | null => simp [truthy] at htr
        | bool b => cases b <;> simp_all [truthy]
        | num n => simp_all [truthy]
        | arr xs => simp_all [truthy]
        | obj fs => simp_all [truthy]
  · split <;> rfl

theorem resolveEntry_ok_of_safe (w : ProbeWorld) (s : JValue)
    (h : entrySafe s = true) : ∃ v, resolveEntry w s = .ok v := by
  unfold entrySafe at h
  unfold resolveEntry
  cases hl : objLookup (ownEntries s) "liveNow"
  case none =>
    rw [hl] at h
    exact (exceptIsOk_iff _).1 (resolveFresh_isOk w _ h)
  case some v =>
    cases v
    case bool b => exact ⟨_, rfl⟩
    all_goals
      rw [hl] at h
      exact (exceptIsOk_iff _).1 (resolveFresh_isOk w _ h)

theorem resolveAll_ok_of_safe (pw : Nat → ProbeWorld) (i : Nat) (xs : List JValue)
    (h : ∀ s ∈ xs, entrySafe s = true) : ∃ ys, resolveAll pw i xs = .ok ys := by
  induction xs generalizing i with
  | nil => exact ⟨[], rfl⟩
  | cons s rest ih =>
    obtain ⟨v, hv⟩ := resolveEntry_ok_of_safe (pw i) s (h s (List.mem_cons_self s rest))
    obtain ⟨ys, hys⟩ := ih (i + 1) (fun t htm => h t (List.mem_cons_of_mem s htm))
    exact ⟨v :: ys, by simp [resolveAll, hv, hys]⟩

/-! ### Claims about the aggregator -/

/-- C5: for every stream entry whose `liveNow` field is already a boolean,
the per-entry resolution — in both the current (check-live.js) and the
earlier (part_001) variant — returns the entry with all its fields
unchanged, for every state of the network (no probe influences the result),
so a manual override is never overwritten. -/
theorem manual_override_preserved (w : ProbeWorld) (s : JValue) (b : Bool)
    (h : objLookup (ownEntries s) "liveNow" = some (.bool b)) :
    resolveEntry w s = .ok (.obj (ownEntries s))
    ∧ resolveEntryLegacy w s = .obj (ownEntries s) := by
  constructor
  · unfold resolveEntry; rw [h]
  · unfold resolveEntryLegacy; rw [h]

/-- C5 witness: an entry with `liveNow: true` is passed through unchanged
even when every probe of its URL would report not-live (all fetches throw). -/
theorem manual_override_preserved_witness :
    resolveEntry ⟨none, none⟩
      (.obj [("platform", .str "youtube"), ("url", .str "https://y"), ("liveNow", .bool true)])
      = .ok (.obj [("platform", .str "youtube"), ("url", .str "https://y"),
          ("liveNow", .bool true)])
    ∧ resolveEntryLegacy ⟨none, none⟩
      (.obj [("platform", .str "youtube"), ("url", .str "https://y"), ("liveNow", .bool true)])
      = .obj [("platform", .str "youtube"), ("url", .str "https://y"), ("liveNow", .bool true)]
    ∧ isYoutubeLive ⟨none, none⟩ "https://y" = false :=
  ⟨(manual_override_preserved ⟨none, none⟩
      (.obj [("platform", .str "youtube"), ("url", .str "https://y"), ("liveNow", .bool true)])
      true rfl).1,
   (manual_override_preserved ⟨none, none⟩
      (.obj [("platform", .str "youtube"), ("url", .str "https://y"), ("liveNow", .bool true)])
      true rfl).2,
   rfl⟩

/-- C3 (amended to the current heuristic, check-live.js): when the trimmed
input URL is nonempty, the first fetch returns, its body reads, and the
post-redirect URL matches the watch-page pattern `/watch?v=`, the probe
answers exactly the strong live-indicator check on the returned markup — in
particular a watch page whose markup lacks every indicator yields `false`. -/
theorem watch_page_decision (w : ProbeWorld) (inputUrl : String) (r₁ : FetchRes)
    (html : String)
    (hne : (trimJs inputUrl == "") = false)
    (h1 : w.fetch1 = some r₁)
    (ht : r₁.text = some html)
    (hwatch : containsSub (resolvedUrl r₁ inputUrl) "/watch?v=" = true) :
    isYoutubeLive w inputUrl = liveSignals html := by
  simp [isYoutubeLive, hne, h1, ht, hwatch]

/-- C3 witness: a probe that lands on a watch URL answers `true` exactly
when the markup carries an indicator — here `"isLiveNow": true`. -/
theorem watch_page_decision_witness :
    isYoutubeLive
      ⟨some ⟨"https://www.youtube.com/watch?v=abcdefghijk&hl=en&gl=US",
        some "x\"isLiveNow\": true y"⟩, none⟩
      "https://www.youtube.com/live/x"
      = liveSignals "x\"isLiveNow\": true y"
    ∧ liveSignals "x\"isLiveNow\": true y" = true :=
  ⟨watch_page_decision
      ⟨some ⟨"https://www.youtube.com/watch?v=abcdefghijk&hl=en&gl=US",
        some "x\"isLiveNow\": true y"⟩, none⟩
      "https://www.youtube.com/live/x"
      ⟨"https://www.youtube.com/watch?v=abcdefghijk&hl=en&gl=US",
        some "x\"isLiveNow\": true y"⟩
      "x\"isLiveNow\": true y" rfl rfl rfl rfl,
   rfl⟩

/-- C3 counterexample: in the earlier variant (part_001), a resolved URL
matching the watch-page pattern yields `true` immediately, without
inspecting the markup: with an empty body — which contains no
live-indicator pattern at all — the probe still answers `true`. -/
theorem watch_page_decision_counterexample :
    isYoutubeLiveLegacy
      ⟨some ⟨"https://www.youtube.com/watch?v=abcdefghijk", some ""⟩, none⟩
      "https://www.youtube.com/live/x" = true
    ∧ liveSignals "" = false
    ∧ testIsLiveNowTrue "" = false :=
  ⟨rfl, rfl, rfl⟩

/-- C4 (amended to the current dispatch, check-live.js): for an entry whose
`liveNow` is not yet a boolean, with `platform` either a truthy string `p`
or absent/falsy (in which case `p` is the default "youtube"), the comparison
is on the lower-cased string: if it equals "youtube" and a truthy `url` is
present, the heuristic decides `liveNow`; in every other case `liveNow` is
set to `false`. -/
theorem platform_dispatch (w : ProbeWorld) (s : JValue) (p : String)
    (hlive : ∀ b, objLookup (ownEntries s) "liveNow" ≠ some (.bool b))
    (hp : (objLookup (ownEntries s) "platform" = some (.str p) ∧ truthy (.str p) = true)
        ∨ (optTruthy (objLookup (ownEntries s) "platform") = false ∧ p = "youtube")) :
    (toLowerStr p = "youtube" → optTruthy (objLookup (ownEntries s) "url") = true →
      resolveEntry w s = .ok (.obj (objSet (ownEntries s) "liveNow"
        (.bool (isYoutubeLive w
          (jsToString ((objLookup (ownEntries s) "url").getD .null)))))))
    ∧ ((toLowerStr p ≠ "youtube" ∨ optTruthy (objLookup (ownEntries s) "url") = false) →
      resolveEntry w s = .ok (.obj (objSet (ownEntries s) "liveNow" (.bool false)))) := by
  rw [resolveEntry_eq_fresh w s hlive]
  rcases hp with ⟨hpv, hpt⟩ | ⟨hpf, hpy⟩
  · constructor
    · intro hyt hurl
      simp [resolveFresh, hpv, hpt, hyt, hurl]
    · intro hno
      rcases hno with hno | hno
      · cases hurl : optTruthy (objLookup (ownEntries s) "url") with
        | true => simp [resolveFresh, hpv, hpt, hurl, hno]
        | false => simp [resolveFresh, hpv, hpt, hurl]
      · simp [resolveFresh, hpv, hpt, hno]
  · subst hpy
    have hpr : (match objLookup (ownEntries s) "platform" with
        | some v => if truthy v then some v else none
        | none => none) = (none : Option JValue) := by
      cases hpv : objLookup (ownEntries s) "platform" with
      | none => rfl
      | some v =>
        rw [hpv] at hpf
        simp [optTruthy] at hpf
        simp [hpf]
    constructor
    · intro _ hurl
      have htl : toLowerStr "youtube" = "youtube" := rfl
      simp [resolveFresh, hpr, hurl, htl]
    · intro hno
      rcases hno with hno | hno
      · exact absurd rfl hno
      · have htl : toLowerStr "youtube" = "youtube" := rfl
        simp [resolveFresh, hpr, hno, htl]

/-- C4 witness: platform "YouTube" (mixed case) with a URL whose probe sees
live markup resolves through the heuristic to `liveNow: true`; platform
"facebook" resolves to `liveNow: false` without consulting the network. -/
theorem platform_dispatch_witness :
    resolveEntry
      ⟨some ⟨"https://www.youtube.com/watch?v=abcdefghijk&hl=en&gl=US",
        some "x\"isLiveNow\": true y"⟩, none⟩
      (.obj [("platform", .str "YouTube"),
        ("url", .str "https://www.youtube.com/watch?v=abcdefghijk")])
      = .ok (.obj [("platform", .str "YouTube"),
          ("url", .str "https://www.youtube.com/watch?v=abcdefghijk"),
          ("liveNow", .bool true)])
    ∧ resolveEntry ⟨none, none⟩
      (.obj [("platform", .str "facebook"), ("url", .str "https://f")])
      = .ok (.obj [("platform", .str "facebook"), ("url", .str "https://f"),
          ("liveNow", .bool false)]) := by
  constructor
  · exact ((platform_dispatch
      ⟨some ⟨"https://www.youtube.com/watch?v=abcdefghijk&hl=en&gl=US",
        some "x\"isLiveNow\": true y"⟩, none⟩
      (.obj [("platform", .str "YouTube"),
        ("url", .str "https://www.youtube.com/watch?v=abcdefghijk")])
      "YouTube"
      (fun b h => by simp [objLookup] at h)
      (Or.inl ⟨rfl, rfl⟩)).1 rfl rfl)
  · exact ((platform_dispatch ⟨none, none⟩
      (.obj [("platform", .str "facebook"), ("url", .str "https://f")])
      "facebook"
      (fun b h => by simp [objLookup] at h)
      (Or.inl ⟨rfl, rfl⟩)).2 (Or.inl (by decide)))

/-- C4 counterexample: the earlier variant (part_001) compares the platform
string case-sensitively: the entry `platform: "YouTube"` with a URL whose
probe would answer live is resolved to `liveNow: false` there, while the
current dispatch probes it and resolves `liveNow: true`. -/
theorem platform_dispatch_counterexample :
    resolveEntryLegacy
      ⟨some ⟨"https://www.youtube.com/watch?v=abcdefghijk&hl=en&gl=US",
        some "x\"isLiveNow\": true y"⟩, none⟩
      (.obj [("platform", .str "YouTube"),
        ("url", .str "https://www.youtube.com/watch?v=abcdefghijk")])
      = .obj [("platform", .str "YouTube"),
          ("url", .str "https://www.youtube.com/watch?v=abcdefghijk"),
          ("liveNow", .bool false)]
    ∧ resolveEntry
      ⟨some ⟨"https://www.youtube.com/watch?v=abcdefghijk&hl=en&gl=US",
        some "x\"isLiveNow\": true y"⟩, none⟩
      (.obj [("platform", .str "YouTube"),
        ("url", .str "https://www.youtube.com/watch?v=abcdefghijk")])
      = .ok (.obj [("platform", .str "YouTube"),
          ("url", .str "https://www.youtube.com/watch?v=abcdefghijk"),
          ("liveNow", .bool true)]) :=
  ⟨rfl, rfl⟩

/-- C6: the probe is total and never raises — modeled exceptions (a thrown
or timed-out first fetch, a failed body read, a thrown follow-up fetch or
follow-up body read) all yield `false`, in both probe variants; and a
request whose every probe throws still produces a 200 aggregator response. -/
theorem probe_never_raises :
    (∀ (f₂ : Option FetchRes) (u : String), isYoutubeLive ⟨none, f₂⟩ u = false)
    ∧ (∀ (f₂ : Option FetchRes) (u s : String),
        isYoutubeLive ⟨some ⟨s, none⟩, f₂⟩ u = false)
    ∧ (∀ (u : String) (r₁ : FetchRes) (html vid : String),
        r₁.text = some html →
        containsSub (resolvedUrl r₁ u) "/watch?v=" = false →
        findCanonical html = some vid →
        isYoutubeLive ⟨some r₁, none⟩ u = false)
    ∧ (∀ (u : String) (r₁ : FetchRes) (html vid r2url : String),
        r₁.text = some html →
        containsSub (resolvedUrl r₁ u) "/watch?v=" = false →
        findCanonical html = some vid →
        isYoutubeLive ⟨some r₁, some ⟨r2url, none⟩⟩ u = false)
    ∧ (∀ (f₂ : Option FetchRes) (u : String), isYoutubeLiveLegacy ⟨none, f₂⟩ u = false)
    ∧ (∀ (env : AggEnv) (event : AggEvent) (cache : Cache) (now : Int)
        (st : Nat) (json : JValue) (xs : List JValue) (nowIso : String),
        event.httpMethod = "GET" → envTruthy env.LIVE_JSON_URL = true →
        cache.payload = none →
        json ≠ .null →
        jsGet json "streams" = some (.arr xs) →
        (∀ s ∈ xs, entrySafe s = true) →
        (aggHandler env event cache now (some ⟨true, st, some json⟩) nowIso
          (fun _ => ⟨none, none⟩)).statusCode = 200) := by
  refine ⟨?_, ?_, ?_, ?_, ?_, ?_⟩
  · intro f₂ u; simp [isYoutubeLive]
  · intro f₂ u s; simp [isYoutubeLive]
  · intro u r₁ html vid ht hw hc
    cases hne : (trimJs u == "") with
    | true => simp [isYoutubeLive, hne]
    | false => simp [isYoutubeLive, hne, ht, hw, hc]
  · intro u r₁ html vid r2url ht hw hc
    cases hne : (trimJs u == "") with
    | true => simp [isYoutubeLive, hne]
    | false => simp [isYoutubeLive, hne, ht, hw, hc]
  · intro f₂ u; rfl
  · intro env event cache now st json xs nowIso hm henv hc hnn hs hsafe
    obtain ⟨ys, hys⟩ := resolveAll_ok_of_safe (fun _ => ⟨none, none⟩) 0 xs hsafe
    simp [aggHandler, hm, henv, hc, aggRefresh, jsGetE_ne_null json hnn, hs, hys]

/-- C6 witness: a probe whose fetch throws answers `false`; an aggregator
request whose only entry's probe throws still returns 200. -/
theorem probe_never_raises_witness :
    isYoutubeLive ⟨none, none⟩ "https://www.youtube.com/@chan/live" = false
    ∧ (aggHandler ⟨some "https://src/live.json", none⟩ ⟨"GET", none⟩ ⟨0, none⟩ 1000
        (some ⟨true, 200, some (.obj [("streams",
          .arr [.obj [("url", .str "https://www.youtube.com/@chan/live")]])])⟩)
        "2026-01-01T00:00:00.000Z" (fun _ => ⟨none, none⟩)).statusCode = 200 := by
  refine ⟨probe_never_raises.1 none _, ?_⟩
  exact probe_never_raises.2.2.2.2.2
    ⟨some "https://src/live.json", none⟩ ⟨"GET", none⟩ ⟨0, none⟩ 1000 200
    (.obj [("streams", .arr [.obj [("url", .str "https://www.youtube.com/@chan/live")]])])
    [.obj [("url", .str "https://www.youtube.com/@chan/live")]]
    "2026-01-01T00:00:00.000Z" rfl rfl rfl (fun h => JValue.noConfusion h) rfl
    (fun s hs => by rw [List.mem_singleton] at hs; subst hs; rfl)

/-- C7: a GET arriving while the single cache slot holds a payload younger
than the 90-second TTL is answered 200 with exactly the cached payload (its
`checkedAt` included), the slot untouched and no upstream fetch issued —
whatever the network would say; a GET arriving at or after expiry issues the
upstream fetch and, on success, rebuilds the payload with the fresh
`checkedAt` and overwrites the slot with the current time. -/
theorem cache_ttl (env : AggEnv) (event : AggEvent) (cache : Cache) (now : Int)
    (p : LivePayload)
    (hm : event.httpMethod = "GET")
    (henv : envTruthy env.LIVE_JSON_URL = true)
    (hc : cache.payload = some p) :
    (now - cache.atTime < CACHE_TTL_MS →
      ∀ (upstream : Option UpstreamRes) (nowIso : String) (pw : Nat → ProbeWorld),
        aggHandler env event cache now upstream nowIso pw
          = ⟨200, .payload p, cache, false⟩)
    ∧ (CACHE_TTL_MS ≤ now - cache.atTime →
      ∀ (st : Nat) (json : JValue) (xs ys : List JValue) (nowIso : String)
        (pw : Nat → ProbeWorld),
        json ≠ .null →
        jsGet json "streams" = some (.arr xs) →
        resolveAll pw 0 xs = .ok ys →
        aggHandler env event cache now (some ⟨true, st, some json⟩) nowIso pw
          = ⟨200, .payload ⟨numberOr1 (jsGet json "version"), nowIso, ys⟩,
              ⟨now, some ⟨numberOr1 (jsGet json "version"), nowIso, ys⟩⟩, true⟩) := by
  constructor
  · intro hlt upstream nowIso pw
    simp [aggHandler, hm, henv, hc, hlt]
  · intro hge st json xs ys nowIso pw hnn hs hys
    have hnl : ¬(now - cache.atTime < CACHE_TTL_MS) := not_lt.mpr hge
    simp [aggHandler, hm, henv, hc, hnl, aggRefresh, jsGetE_ne_null json hnn, hs, hys]

/-- C7 witness: with the slot captured at 100 ms, a request at 50000 ms is
served the cached payload (same `checkedAt` "T0") with no fetch even though
no upstream answer exists; a request at 100000 ms refetches, stamps the new
`checkedAt` "T1" and overwrites the slot. -/
theorem cache_ttl_witness :
    aggHandler ⟨some "https://src/live.json", none⟩ ⟨"GET", none⟩
      ⟨100, some ⟨2, "T0", []⟩⟩ 50000 none "T1" (fun _ => ⟨none, none⟩)
      = ⟨200, .payload ⟨2, "T0", []⟩, ⟨100, some ⟨2, "T0", []⟩⟩, false⟩
    ∧ aggHandler ⟨some "https://src/live.json", none⟩ ⟨"GET", none⟩
      ⟨100, some ⟨2, "T0", []⟩⟩ 100000
      (some ⟨true, 200, some (.obj [("version", .num 3), ("streams", .arr [])])⟩)
      "T1" (fun _ => ⟨none, none⟩)
      = ⟨200, .payload ⟨3, "T1", []⟩, ⟨100000, some ⟨3, "T1", []⟩⟩, true⟩ := by
  constructor
  · exact (cache_ttl ⟨some "https://src/live.json", none⟩ ⟨"GET", none⟩
      ⟨100, some ⟨2, "T0", []⟩⟩ 50000 ⟨2, "T0", []⟩ rfl rfl rfl).1
      (by decide) none "T1" (fun _ => ⟨none, none⟩)
  · exact (cache_ttl ⟨some "https://src/live.json", none⟩ ⟨"GET", none⟩
      ⟨100, some ⟨2, "T0", []⟩⟩ 100000 ⟨2, "T0", []⟩ rfl rfl rfl).2
      (by decide) 200 (.obj [("version", .num 3), ("streams", .arr [])]) [] [] "T1"
      (fun _ => ⟨none, none⟩) (fun h => JValue.noConfusion h) rfl rfl

/-- C10 counterexample: two concrete refutations of the claim as stated.
With the parsed document `null` — a document with no `streams` field — the
property read `json.streams` throws a TypeError and the aggregator answers
the generic 500, not 200 with empty streams. With the document
`{"version": -3}` the aggregator does answer 200 with empty streams, but the
version is kept at -3: `Number(-3)` is truthy, so a negative (non-positive)
version is not defaulted to 1. -/
theorem streams_not_array_counterexample :
    (aggHandler ⟨some "https://src/live.json", none⟩ ⟨"GET", none⟩ ⟨0, none⟩ 5
      (some ⟨true, 200, some .null⟩) "T" (fun _ => ⟨none, none⟩)).statusCode = 500
    ∧ (aggHandler ⟨some "https://src/live.json", none⟩ ⟨"GET", none⟩ ⟨0, none⟩ 5
      (some ⟨true, 200, some (.obj [("version", .num (-3))])⟩) "T"
      (fun _ => ⟨none, none⟩)).body = .payload ⟨-3, "T", []⟩ :=
  ⟨rfl, rfl⟩

/-- C10 (amended): when the upstream fetch and parse succeed, the parsed
document is not `null`, and its `streams` field is absent or not an array,
the aggregator still answers 200 with an empty `streams` list and with
`version` given by `Number(json.version) || 1` — the coerced number when it
is a nonzero finite number (negative values included), and 1 when the field
is missing or coerces to NaN or 0. A `null` document instead raises on the
`streams` property read and yields the generic 500. -/
theorem streams_not_array_defaults (env : AggEnv) (event : AggEvent) (cache : Cache)
    (now : Int) (st : Nat) (json : JValue) (nowIso : String) (pw : Nat → ProbeWorld)
    (hm : event.httpMethod = "GET")
    (henv : envTruthy env.LIVE_JSON_URL = true)
    (hc : cache.payload = none)
    (hnn : json ≠ .null)
    (hns : ∀ xs, jsGet json "streams" ≠ some (.arr xs)) :
    (aggHandler env event cache now (some ⟨true, st, some json⟩) nowIso pw).statusCode
      = 200
    ∧ (aggHandler env event cache now (some ⟨true, st, some json⟩) nowIso pw).body
      = .payload ⟨numberOr1 (jsGet json "version"), nowIso, []⟩ := by
  cases hs : jsGet json "streams" with
  | none =>
    constructor <;>
      simp [aggHandler, hm, henv, hc, aggRefresh, jsGetE_ne_null json hnn, hs, resolveAll]
  | some v =>
    cases v
    case arr xs => exact absurd hs (hns xs)
    all_goals constructor <;>
      simp [aggHandler, hm, henv, hc, aggRefresh, jsGetE_ne_null json hnn, hs, resolveAll]

/-- C10 amended witness: the document `{"version": 7}` (no `streams` field)
yields 200 with empty streams and version 7. -/
theorem streams_not_array_defaults_witness :
    (aggHandler ⟨some "https://src/live.json", none⟩ ⟨"GET", none⟩ ⟨0, none⟩ 5
      (some ⟨true, 200, some (.obj [("version", .num 7)])⟩) "T"
      (fun _ => ⟨none, none⟩)).statusCode = 200
    ∧ (aggHandler ⟨some "https://src/live.json", none⟩ ⟨"GET", none⟩ ⟨0, none⟩ 5
      (some ⟨true, 200, some (.obj [("version", .num 7)])⟩) "T"
      (fun _ => ⟨none, none⟩)).body = .payload ⟨7, "T", []⟩ :=
  streams_not_array_defaults ⟨some "https://src/live.json", none⟩ ⟨"GET", none⟩
    ⟨0, none⟩ 5 200 (.obj [("version", .num 7)]) "T" (fun _ => ⟨none, none⟩)
    rfl rfl rfl (fun h => JValue.noConfusion h) (fun _ h => Option.noConfusion h)

end CdsAdmin
